import Mathlib

/-!
# DelNet: dispatch coordination over a geospatial index and a document store

A shallow embedding of the HTTP handlers of `src/backend/main.go` (the full
variant, Tile38 + MongoDB) and of `src/main.go` (the Tile38-only variant).

* The two stores are explicit state: the Tile38 index is a list of keyed
  points, the MongoDB collection `geoDB.locations` a list of documents, both in
  insertion order.
* Every client call can fail.  What a call returns is decided by a `Faults`
  record (one optional error per client call of the source); a call that
  returns an error leaves its store as it was.
* `float64` coordinates are exact rationals: the handlers only store and
  forward coordinates, they never compute with them.  Distances are computed
  inside Tile38, so the distance function is a parameter of the search.
-/

namespace DelNet

/-! ## Data model -/

/-- A coordinate (`float64` in the source). -/
abbrev Coord := Rat

/-- A position: latitude and longitude. -/
structure Point where
  lat : Coord
  lng : Coord
deriving DecidableEq, Repr

/-- One object of the Tile38 index: the collection key (`"drivers"`,
`"deliveries"`, `"stores"`), the object id and its point. -/
structure GeoObject where
  key : String
  id : String
  point : Point
deriving DecidableEq, Repr

/-- One document of the MongoDB collection, with the four fields the handlers
write (`bson.M{"id", "lat", "lng", "type"}`). -/
structure Doc where
  id : String
  lat : Coord
  lng : Coord
  type : String
deriving DecidableEq, Repr

/-- The errors a client call can return. -/
inductive CallErr where
  | errNoDocuments
  | duplicateKey
  | unavailable
deriving DecidableEq, Repr

/-- What each client call of a handler returns besides its effect: `none` is a
nil error, `some e` the error `e`. -/
structure Faults where
  tileSet : Option CallErr
  tileDel : Option CallErr
  tileNearby : Option CallErr
  findOne : Option CallErr
  insertOne : Option CallErr
  updateOne : Option CallErr
  deleteOne : Option CallErr
  find : Option CallErr
  cursorAll : Option CallErr
deriving DecidableEq, Repr

/-- Every client call succeeds. -/
def Faults.ok : Faults :=
  ⟨none, none, none, none, none, none, none, none, none⟩

/-- The state of the system: the Tile38 index and the MongoDB collection. -/
structure State where
  geo : List GeoObject
  docs : List Doc
deriving DecidableEq, Repr

/-- Both stores empty. -/
def State.empty : State := ⟨[], []⟩

/-- What a handler writes with `c.JSON`: a status with a one-field JSON object
(`gin.H{field: value}`), or a status with the list of documents. -/
inductive Response where
  | json (status : Nat) (field : String) (value : String)
  | documents (status : Nat) (docs : List Doc)
deriving DecidableEq, Repr

/-- Body of `POST /drivers`, `POST /drivers/update` and `POST /deliveries`. -/
structure PointReq where
  id : String
  lat : Coord
  lng : Coord
deriving DecidableEq, Repr

/-- Body of the `DELETE` routes. -/
structure IdReq where
  id : String
deriving DecidableEq, Repr

/-- Body of `GET /nearest-driver`. -/
structure OriginReq where
  lat : Coord
  lng : Coord
deriving DecidableEq, Repr

/-! ## The Tile38 client -/

namespace Tile38

/-- Does the object live under `key` with id `id`? -/
def isAt (key id : String) (o : GeoObject) : Bool :=
  decide (o.key = key) && decide (o.id = id)

/-- The effect of a successful `SET key id POINT lat lng`: the object under
`(key, id)` is replaced where it stands, and when there is none the new object
goes to the end of the index. -/
def upsertPoint (key id : String) (p : Point) : List GeoObject → List GeoObject
  | [] => [⟨key, id, p⟩]
  | o :: os => if isAt key id o then ⟨key, id, p⟩ :: os else o :: upsertPoint key id p os

/-- Modelled from the spec: the Tile38 server behind `tile38.Keys.Set(key,
id).Point(lat, lng).Do(ctx)` is not part of the repository; spec 4.1 `upsert`
"inserts or replaces the point for (category, id)".  A failed call changes
nothing. -/
def set (fault : Option CallErr) (g : List GeoObject) (key id : String) (lat lng : Coord) :
    Option CallErr × List GeoObject :=
  match fault with
  | some e => (some e, g)
  | none => (none, upsertPoint key id ⟨lat, lng⟩ g)

/-- Modelled from the spec: the Tile38 server behind `tile38.Keys.Del(ctx, key,
id)` is not part of the repository; spec 4.1 `delete` "removes the point", and
deleting an absent id is a no-op.  A failed call changes nothing. -/
def del (fault : Option CallErr) (g : List GeoObject) (key id : String) :
    Option CallErr × List GeoObject :=
  match fault with
  | some e => (some e, g)
  | none => (none, g.filter (fun o => !isAt key id o))

/-- Insert `o` into a list sorted by `d`, before the first element that is not
nearer than `o`. -/
def insertByDist (d : GeoObject → Rat) (o : GeoObject) : List GeoObject → List GeoObject
  | [] => [o]
  | x :: xs => if d o ≤ d x then o :: x :: xs else x :: insertByDist d o xs

/-- Stable sort by ascending `d`: among equal distances the index order
(insertion order) is kept. -/
def sortByDist (d : GeoObject → Rat) : List GeoObject → List GeoObject
  | [] => []
  | o :: os => insertByDist d o (sortByDist d os)

/-- Modelled from the spec: the Tile38 server behind `tile38.Search.Nearby(key,
lat, lng, meters).Limit(n).Do(ctx)` is not part of the repository; spec 4.1
`nearby` "returns up to `limit` entities of `category` within `radiusMeters` of
`origin`, ordered by ascending distance", "ties in distance broken by insertion
order".  The distance `dist` is the server's. -/
def nearby (dist : Point → Point → Rat) (fault : Option CallErr) (g : List GeoObject)
    (key : String) (lat lng : Coord) (meters : Rat) (limit : Nat) :
    Except CallErr (List GeoObject) :=
  match fault with
  | some e => .error e
  | none =>
    .ok (((sortByDist (fun o => dist ⟨lat, lng⟩ o.point)
      (g.filter (fun o => decide (o.key = key) && decide (dist ⟨lat, lng⟩ o.point ≤ meters)))).take
        limit))

/-- Is some object stored under `(key, id)`? -/
def held (g : List GeoObject) (key id : String) : Bool :=
  g.any (isAt key id)

end Tile38

/-! ## The MongoDB client -/

namespace Mongo

/-- Modelled from the spec: the MongoDB server behind `collection.FindOne(ctx,
bson.M{"id": id})` is not part of the repository; spec 4.2 `exists`: "true if
any document (of any category) has this id".  The result's `Err()` is nil with
the first matching document, `ErrNoDocuments` when there is none, and the
call's own error when the call fails. -/
def findOne (fault : Option CallErr) (docs : List Doc) (id : String) : Except CallErr Doc :=
  match fault with
  | some e => .error e
  | none =>
    match docs.find? (fun d => decide (d.id = id)) with
    | some d => .ok d
    | none => .error .errNoDocuments

/-- Modelled from the spec: the MongoDB server behind `collection.InsertOne` is
not part of the repository; spec 4.2 `insert`: the document is added, or the
call fails (`DuplicateError`, `StoreError`) and nothing is added. -/
def insertOne (fault : Option CallErr) (docs : List Doc) (d : Doc) : Option CallErr × List Doc :=
  match fault with
  | some e => (some e, docs)
  | none => (none, docs ++ [d])

/-- The effect of `UpdateOne(filter {"id": id}, {"$set": {lat, lng, type}},
upsert)`: the first document with the id gets the three fields, and when no
document has the id the document `{id, lat, lng, type}` is inserted. -/
def upsertFields (id : String) (lat lng : Coord) (type : String) : List Doc → List Doc
  | [] => [⟨id, lat, lng, type⟩]
  | d :: ds =>
    if d.id = id then ⟨d.id, lat, lng, type⟩ :: ds else d :: upsertFields id lat lng type ds

/-- Modelled from the spec: the MongoDB server behind `collection.UpdateOne(...,
options.Update().SetUpsert(true))` is not part of the repository; spec 4.2
`upsert`: "insert-or-replace by id".  A failed call changes nothing. -/
def updateOne (fault : Option CallErr) (docs : List Doc) (id : String) (lat lng : Coord)
    (type : String) : Option CallErr × List Doc :=
  match fault with
  | some e => (some e, docs)
  | none => (none, upsertFields id lat lng type docs)

/-- Remove the first document with the given id and type. -/
def eraseFirst (id type : String) : List Doc → List Doc
  | [] => []
  | d :: ds =>
    if d.id = id ∧ d.type = type then ds else d :: eraseFirst id type ds

/-- Modelled from the spec: the MongoDB server behind `collection.DeleteOne(ctx,
bson.M{"id": id, "type": type})` is not part of the repository; spec 4.2
`delete`: "removes the document matching id (and category, if supplied)".
Deleting when nothing matches is a success.  A failed call changes nothing. -/
def deleteOne (fault : Option CallErr) (docs : List Doc) (id type : String) :
    Option CallErr × List Doc :=
  match fault with
  | some e => (some e, docs)
  | none => (none, eraseFirst id type docs)

/-- Modelled from the spec: the MongoDB server behind `collection.Find(ctx,
bson.M{})` followed by `cursor.All` is not part of the repository; spec 4.2
`scanAll`: "returns every stored document". -/
def findAll (findFault cursorFault : Option CallErr) (docs : List Doc) :
    Except CallErr (Except CallErr (List Doc)) :=
  match findFault with
  | some e => .error e
  | none =>
    match cursorFault with
    | some e => .ok (.error e)
    | none => .ok (.ok docs)

end Mongo

/-! ## The handlers of `src/backend/main.go` -/

namespace Backend

/-- The id of the demo store, `storeID` in `addStore`. -/
def storeID : String := "store1"

/-- The latitude of the demo store, `storeLat` in `addStore`. -/
def storeLat : Coord := 37.7749

/-- The longitude of the demo store, `storeLng` in `addStore`. -/
def storeLng : Coord := -122.4194

/-- The response of every handler whose `c.ShouldBindJSON(&req)` fails. -/
def badRequest (msg : String) : Response := .json 400 "error" msg

/-- The response of the existence pre-check of `addDelivery` and `addStore`. -/
def duplicateId : Response := .json 400 "error" "ID already exists for another entity"

/-- Handler `addDriver` (`POST /drivers`).  The error of the Tile38 `Set` is
dropped; only the error of `UpdateOne` is looked at. -/
def addDriver (env : Faults) (bind : Except String PointReq) (s : State) : Response × State :=
  match bind with
  | .error msg => (badRequest msg, s)
  | .ok req =>
    let geo := (Tile38.set env.tileSet s.geo "drivers" req.id req.lat req.lng).2
    match Mongo.updateOne env.updateOne s.docs req.id req.lat req.lng "driver" with
    | (some _, docs) => (.json 500 "error" "Failed to store/update driver", ⟨geo, docs⟩)
    | (none, docs) => (.json 200 "message" "Driver added/updated", ⟨geo, docs⟩)

/-- Handler `updateDriverLocation` (`POST /drivers/update`): reuses
`addDriver`. -/
def updateDriverLocation (env : Faults) (bind : Except String PointReq) (s : State) :
    Response × State :=
  addDriver env bind s

/-- Handler `addDelivery` (`POST /deliveries`). -/
def addDelivery (env : Faults) (bind : Except String PointReq) (s : State) : Response × State :=
  match bind with
  | .error msg => (badRequest msg, s)
  | .ok req =>
    match Mongo.findOne env.findOne s.docs req.id with
    | .ok _ => (duplicateId, s)
    | .error _ =>
      let geo := (Tile38.set env.tileSet s.geo "deliveries" req.id req.lat req.lng).2
      match Mongo.insertOne env.insertOne s.docs ⟨req.id, req.lat, req.lng, "delivery"⟩ with
      | (some _, docs) => (.json 500 "error" "Failed to store delivery", ⟨geo, docs⟩)
      | (none, docs) => (.json 200 "message" "Delivery added", ⟨geo, docs⟩)

/-- Handler `addStore` (`POST /stores`).  It reads nothing from the request: id
and position are the constants `storeID`, `storeLat`, `storeLng`. -/
def addStore (env : Faults) (s : State) : Response × State :=
  match Mongo.findOne env.findOne s.docs storeID with
  | .ok _ => (duplicateId, s)
  | .error _ =>
    let geo := (Tile38.set env.tileSet s.geo "stores" storeID storeLat storeLng).2
    match Mongo.insertOne env.insertOne s.docs ⟨storeID, storeLat, storeLng, "store"⟩ with
    | (some _, docs) => (.json 500 "error" "Failed to store store location", ⟨geo, docs⟩)
    | (none, docs) => (.json 200 "message" "Store location added", ⟨geo, docs⟩)

/-- Handler `deleteDriver` (`DELETE /drivers`): Tile38 only. -/
def deleteDriver (env : Faults) (bind : Except String IdReq) (s : State) : Response × State :=
  match bind with
  | .error msg => (badRequest msg, s)
  | .ok req =>
    match Tile38.del env.tileDel s.geo "drivers" req.id with
    | (some _, geo) => (.json 500 "error" "Failed to delete driver from Tile38", ⟨geo, s.docs⟩)
    | (none, geo) => (.json 200 "message" "Driver deleted", ⟨geo, s.docs⟩)

/-- Handler `deleteDelivery` (`DELETE /deliveries`): Tile38 only. -/
def deleteDelivery (env : Faults) (bind : Except String IdReq) (s : State) : Response × State :=
  match bind with
  | .error msg => (badRequest msg, s)
  | .ok req =>
    match Tile38.del env.tileDel s.geo "deliveries" req.id with
    | (some _, geo) => (.json 500 "error" "Failed to delete delivery from Tile38", ⟨geo, s.docs⟩)
    | (none, geo) => (.json 200 "message" "Delivery deleted", ⟨geo, s.docs⟩)

/-- Handler `deleteStore` (`DELETE /stores`): Tile38, then MongoDB filtered by
`"type": "store"`. -/
def deleteStore (env : Faults) (bind : Except String IdReq) (s : State) : Response × State :=
  match bind with
  | .error msg => (badRequest msg, s)
  | .ok req =>
    match Tile38.del env.tileDel s.geo "stores" req.id with
    | (some _, geo) => (.json 500 "error" "Failed to delete store from Tile38", ⟨geo, s.docs⟩)
    | (none, geo) =>
      match Mongo.deleteOne env.deleteOne s.docs req.id "store" with
      | (some _, docs) => (.json 500 "error" "Failed to delete store from MongoDB", ⟨geo, docs⟩)
      | (none, docs) => (.json 200 "message" "Store deleted", ⟨geo, docs⟩)

/-- Handler `findNearestDriver` (`GET /nearest-driver`): `Nearby("drivers", lat,
lng, 10000).Limit(1)`; it reads the index and writes nothing. -/
def findNearestDriver (dist : Point → Point → Rat) (env : Faults)
    (bind : Except String OriginReq) (s : State) : Response :=
  match bind with
  | .error msg => badRequest msg
  | .ok req =>
    match Tile38.nearby dist env.tileNearby s.geo "drivers" req.lat req.lng 10000 1 with
    | .error _ => .json 404 "error" "No drivers found"
    | .ok [] => .json 404 "error" "No drivers found"
    | .ok (o :: _) => .json 200 "driver_id" o.id

/-- Handler `getAllLocations` (`GET /locations`): it reads the collection and
writes nothing. -/
def getAllLocations (env : Faults) (s : State) : Response :=
  match Mongo.findAll env.find env.cursorAll s.docs with
  | .error _ => .json 500 "error" "Failed to retrieve locations"
  | .ok (.error _) => .json 500 "error" "Failed to decode locations"
  | .ok (.ok locations) => .documents 200 locations

/-- A request to one of the routes that write. -/
inductive Op where
  | addDriver (bind : Except String PointReq)
  | updateDriverLocation (bind : Except String PointReq)
  | addDelivery (bind : Except String PointReq)
  | addStore
  | deleteDriver (bind : Except String IdReq)
  | deleteDelivery (bind : Except String IdReq)
  | deleteStore (bind : Except String IdReq)

/-- Serve one request. -/
def serve (env : Faults) (op : Op) (s : State) : Response × State :=
  match op with
  | .addDriver b => addDriver env b s
  | .updateDriverLocation b => updateDriverLocation env b s
  | .addDelivery b => addDelivery env b s
  | .addStore => addStore env s
  | .deleteDriver b => deleteDriver env b s
  | .deleteDelivery b => deleteDelivery env b s
  | .deleteStore b => deleteStore env b s

/-- The states reached from the empty stores by serving requests one after the
other, the client calls of each request returning what a `Faults` record
satisfying `P` says. -/
inductive Reachable (P : Faults → Prop) : State → Prop where
  | init : Reachable P State.empty
  | step (env : Faults) (op : Op) (s : State) :
      P env → Reachable P s → Reachable P (serve env op s).2

end Backend

/-! ## The handlers of `src/main.go` (Tile38 only) -/

namespace Minimal

/-- Handler `addDriver` of `src/main.go`: the error of the Tile38 `Set` is
reported as a 500. -/
def addDriver (env : Faults) (bind : Except String PointReq) (g : List GeoObject) :
    Response × List GeoObject :=
  match bind with
  | .error msg => (Backend.badRequest msg, g)
  | .ok req =>
    match Tile38.set env.tileSet g "drivers" req.id req.lat req.lng with
    | (some _, g1) => (.json 500 "error" "Failed to store driver", g1)
    | (none, g1) => (.json 200 "message" "Driver added", g1)

end Minimal


/-! ## Invariants and example data -/

namespace Backend

/-- The existence lookup `FindOne` of the request returns without a client
error, so that it answers from the collection. -/
def LookupOk (env : Faults) : Prop := env.findOne = none

/-- Every client call of the request succeeds. -/
def AllOk (env : Faults) : Prop := env = Faults.ok

/-- The create-once guard as a state invariant: an id held under `"deliveries"`
has a document that is not of type `"store"`, an id held under `"stores"` has a
document, and no id is held under both keys. -/
def Guarded (s : State) : Prop :=
  (∀ id, Tile38.held s.geo "deliveries" id = true →
      ∃ d ∈ s.docs, d.id = id ∧ d.type ≠ "store") ∧
  (∀ id, Tile38.held s.geo "stores" id = true → ∃ d ∈ s.docs, d.id = id) ∧
  (∀ id, ¬ (Tile38.held s.geo "deliveries" id = true ∧ Tile38.held s.geo "stores" id = true))

/-- A distance for the worked examples: the sum of the coordinate gaps. -/
def gapDist (a b : Point) : Rat := |a.lat - b.lat| + |a.lng - b.lng|

/-- MongoDB is unreachable: `FindOne` and `InsertOne` return an error, Tile38
answers. -/
def mongoDown : Faults :=
  ⟨none, none, none, some .unavailable, some .unavailable, some .unavailable,
    some .unavailable, some .unavailable, none⟩

/-- Tile38 rejects the `Set`, MongoDB answers. -/
def tileSetFails : Faults :=
  ⟨some .unavailable, none, none, none, none, none, none, none, none⟩

/-- The collection rejects the insert as a duplicate: the pre-check finds
nothing, `InsertOne` returns a duplicate-key error. -/
def insertDuplicate : Faults :=
  ⟨none, none, none, none, some .duplicateKey, none, none, none, none⟩

/-- A collection that already holds the id `"a"`, as a driver. -/
def oneDriverDoc : State := ⟨[], [⟨"a", 0, 0, "driver"⟩]⟩

/-- The existence lookup fails with a client error, every other call
succeeds. -/
def lookupFails : Faults :=
  ⟨none, none, none, some .unavailable, none, none, none, none, none⟩

/-- Driver `"a"` registered at `(1, 1)`. -/
def driverAtOrigin : State := ⟨[⟨"drivers", "a", ⟨1, 1⟩⟩], [⟨"a", 1, 1, "driver"⟩]⟩

/-- Driver `"a"` registered at `(5, 5)`. -/
def driverFarAway : State := ⟨[⟨"drivers", "a", ⟨5, 5⟩⟩], [⟨"a", 5, 5, "driver"⟩]⟩

/-- The state after `POST /deliveries {a, 1, 1}` and then `POST /drivers
{a, 1, 1}` on empty stores, every call succeeding. -/
def deliveryThenDriver : State :=
  (serve Faults.ok (.addDriver (.ok ⟨"a", 1, 1⟩))
    (serve Faults.ok (.addDelivery (.ok ⟨"a", 1, 1⟩)) State.empty).2).2

end Backend

/-! ## Lemmas on the Tile38 model -/

namespace Tile38

theorem isAt_iff (key id : String) (o : GeoObject) :
    isAt key id o = true ↔ o.key = key ∧ o.id = id := by
  simp [isAt]

theorem mem_upsertPoint_self (key id : String) (p : Point) (g : List GeoObject) :
    (⟨key, id, p⟩ : GeoObject) ∈ upsertPoint key id p g := by
  induction g with
  | nil => simp [upsertPoint]
  | cons o os ih =>
    unfold upsertPoint
    split
    · simp
    · exact List.mem_cons_of_mem _ ih

theorem mem_upsertPoint (key id : String) (p : Point) (g : List GeoObject) (x : GeoObject)
    (hx : x ∈ upsertPoint key id p g) : x ∈ g ∨ x = ⟨key, id, p⟩ := by
  induction g with
  | nil => simpa [upsertPoint] using hx
  | cons o os ih =>
    unfold upsertPoint at hx
    split at hx
    · rcases List.mem_cons.mp hx with h | h
      · exact Or.inr h
      · exact Or.inl (List.mem_cons_of_mem _ h)
    · rcases List.mem_cons.mp hx with h | h
      · exact Or.inl (h ▸ List.mem_cons_self _ _)
      · rcases ih h with h1 | h1
        · exact Or.inl (List.mem_cons_of_mem _ h1)
        · exact Or.inr h1

theorem mem_upsertPoint_of_mem (key id : String) (p : Point) (g : List GeoObject)
    (x : GeoObject) (hx : x ∈ g) (hne : isAt key id x = false) :
    x ∈ upsertPoint key id p g := by
  induction g with
  | nil => cases hx
  | cons o os ih =>
    unfold upsertPoint
    rcases List.mem_cons.mp hx with h | h
    · subst h
      simp [hne]
    · split
      · exact List.mem_cons_of_mem _ h
      · exact List.mem_cons_of_mem _ (ih h)

theorem held_iff (g : List GeoObject) (key id : String) :
    held g key id = true ↔ ∃ o ∈ g, o.key = key ∧ o.id = id := by
  simp [held, isAt]

theorem held_upsertPoint (key id : String) (p : Point) (g : List GeoObject)
    (k i : String) :
    held (upsertPoint key id p g) k i = true ↔ held g k i = true ∨ (k = key ∧ i = id) := by
  rw [held_iff, held_iff]
  constructor
  · rintro ⟨o, ho, hk, hi⟩
    rcases mem_upsertPoint key id p g o ho with h | h
    · exact Or.inl ⟨o, h, hk, hi⟩
    · subst h
      exact Or.inr ⟨hk.symm, hi.symm⟩
  · rintro (⟨o, ho, hk, hi⟩ | ⟨hk, hi⟩)
    · by_cases hat : isAt key id o = true
      · obtain ⟨h1, h2⟩ := (isAt_iff key id o).mp hat
        exact ⟨⟨key, id, p⟩, mem_upsertPoint_self key id p g,
          by simp only; rw [← hk, h1], by simp only; rw [← hi, h2]⟩
      · exact ⟨o, mem_upsertPoint_of_mem key id p g o ho (by simpa using hat), hk, hi⟩
    · exact ⟨⟨key, id, p⟩, mem_upsertPoint_self key id p g, hk.symm, hi.symm⟩

theorem held_filter_not_isAt (key id : String) (g : List GeoObject) (k i : String) :
    held (g.filter (fun o => !isAt key id o)) k i = true ↔
      held g k i = true ∧ ¬ (k = key ∧ i = id) := by
  rw [held_iff, held_iff]
  constructor
  · rintro ⟨o, ho, hk, hi⟩
    rw [List.mem_filter] at ho
    refine ⟨⟨o, ho.1, hk, hi⟩, ?_⟩
    rintro ⟨h1, h2⟩
    have : isAt key id o = true := (isAt_iff key id o).mpr ⟨hk.trans h1, hi.trans h2⟩
    simp [this] at ho
  · rintro ⟨⟨o, ho, hk, hi⟩, hne⟩
    refine ⟨o, ?_, hk, hi⟩
    rw [List.mem_filter]
    refine ⟨ho, ?_⟩
    have : ¬ isAt key id o = true := by
      rw [isAt_iff]
      rintro ⟨h1, h2⟩
      exact hne ⟨hk.symm.trans h1, hi.symm.trans h2⟩
    simpa using this

theorem mem_insertByDist (d : GeoObject → Rat) (o x : GeoObject) (l : List GeoObject) :
    x ∈ insertByDist d o l ↔ x = o ∨ x ∈ l := by
  induction l with
  | nil => simp [insertByDist]
  | cons y ys ih =>
    unfold insertByDist
    split
    · simp
    · simp only [List.mem_cons, ih]
      tauto

theorem mem_sortByDist (d : GeoObject → Rat) (x : GeoObject) (l : List GeoObject) :
    x ∈ sortByDist d l ↔ x ∈ l := by
  induction l with
  | nil => simp [sortByDist]
  | cons y ys ih => simp [sortByDist, mem_insertByDist, ih]

theorem pairwise_insertByDist (d : GeoObject → Rat) (o : GeoObject) (l : List GeoObject)
    (h : l.Pairwise (fun a b => d a ≤ d b)) :
    (insertByDist d o l).Pairwise (fun a b => d a ≤ d b) := by
  induction l with
  | nil => simp [insertByDist]
  | cons y ys ih =>
    rw [List.pairwise_cons] at h
    unfold insertByDist
    split
    · rename_i hle
      rw [List.pairwise_cons]
      refine ⟨?_, List.pairwise_cons.mpr h⟩
      intro z hz
      rcases List.mem_cons.mp hz with hz | hz
      · rw [hz]; exact hle
      · exact le_trans hle (h.1 z hz)
    · rename_i hle
      rw [List.pairwise_cons]
      refine ⟨?_, ih h.2⟩
      intro z hz
      rcases (mem_insertByDist d o z ys).mp hz with hz | hz
      · rw [hz]; exact le_of_lt (lt_of_not_le hle)
      · exact h.1 z hz

theorem pairwise_sortByDist (d : GeoObject → Rat) (l : List GeoObject) :
    (sortByDist d l).Pairwise (fun a b => d a ≤ d b) := by
  induction l with
  | nil => simp [sortByDist]
  | cons y ys ih => exact pairwise_insertByDist d y _ ih

/-- The first object of a sorted search result is one of the candidates and no
candidate is nearer. -/
theorem head_sortByDist (d : GeoObject → Rat) (l : List GeoObject) (n : Nat) (h : GeoObject)
    (t : List GeoObject) (heq : (sortByDist d l).take n = h :: t) :
    h ∈ l ∧ ∀ x ∈ l, d h ≤ d x := by
  have hsorted := pairwise_sortByDist d l
  cases hs : sortByDist d l with
  | nil => rw [hs] at heq; simp at heq
  | cons a as =>
    rw [hs] at heq hsorted
    cases n with
    | zero => simp at heq
    | succ m =>
      rw [List.take_succ_cons] at heq
      obtain ⟨rfl, -⟩ := List.cons.inj heq
      rw [List.pairwise_cons] at hsorted
      have hmem : ∀ x, x ∈ l ↔ x ∈ a :: as := by
        intro x
        rw [← hs, mem_sortByDist]
      refine ⟨(hmem a).mpr (List.mem_cons_self _ _), ?_⟩
      intro x hx
      rcases List.mem_cons.mp ((hmem x).mp hx) with hxa | hxa
      · rw [hxa]
      · exact hsorted.1 x hxa

/-- A search with a positive limit answers with an object when a candidate is
within the radius. -/
theorem sortByDist_take_ne_nil (d : GeoObject → Rat) (l : List GeoObject) (n : Nat)
    (x : GeoObject) (hx : x ∈ l) : (sortByDist d l).take (n + 1) ≠ [] := by
  cases hs : sortByDist d l with
  | nil =>
    have := (mem_sortByDist d x l).mpr hx
    rw [hs] at this
    cases this
  | cons a as => simp

end Tile38

/-! ## Lemmas on the MongoDB model -/

namespace Mongo

theorem mem_upsertFields_self (id : String) (lat lng : Coord) (type : String)
    (docs : List Doc) : (⟨id, lat, lng, type⟩ : Doc) ∈ upsertFields id lat lng type docs := by
  induction docs with
  | nil => simp [upsertFields]
  | cons d ds ih =>
    unfold upsertFields
    split
    · rename_i h
      rw [h]
      exact List.mem_cons_self _ _
    · exact List.mem_cons_of_mem _ ih

theorem mem_upsertFields_of_mem (id : String) (lat lng : Coord) (type : String)
    (docs : List Doc) (x : Doc) (hx : x ∈ docs) (hne : x.id ≠ id) :
    x ∈ upsertFields id lat lng type docs := by
  induction docs with
  | nil => cases hx
  | cons d ds ih =>
    unfold upsertFields
    rcases List.mem_cons.mp hx with h | h
    · subst h
      simp [hne]
    · split
      · exact List.mem_cons_of_mem _ h
      · exact List.mem_cons_of_mem _ (ih h)

theorem mem_eraseFirst_of_mem (id type : String) (docs : List Doc) (x : Doc) (hx : x ∈ docs)
    (hne : ¬ (x.id = id ∧ x.type = type)) : x ∈ eraseFirst id type docs := by
  induction docs with
  | nil => cases hx
  | cons d ds ih =>
    unfold eraseFirst
    rcases List.mem_cons.mp hx with h | h
    · subst h
      simp [hne]
    · split
      · exact h
      · exact List.mem_cons_of_mem _ (ih h)

theorem findOne_eq_ok_iff (docs : List Doc) (id : String) :
    (∃ d, findOne none docs id = .ok d) ↔ ∃ d ∈ docs, d.id = id := by
  unfold findOne
  constructor
  · rintro ⟨d, hd⟩
    cases hf : docs.find? (fun d => decide (d.id = id)) with
    | none => simp [hf] at hd
    | some x =>
      have h1 := List.find?_some hf
      exact ⟨x, List.mem_of_find?_eq_some hf, by simpa using h1⟩
  · rintro ⟨d, hd, hid⟩
    cases hf : docs.find? (fun d => decide (d.id = id)) with
    | none =>
      rw [List.find?_eq_none] at hf
      exact absurd (by simpa using hid) (hf d hd)
    | some x => exact ⟨x, rfl⟩

end Mongo

/-! ## The effect of the handlers on the two stores -/

namespace Backend

theorem addDriver_state (env : Faults) (req : PointReq) (s : State) :
    (addDriver env (.ok req) s).2 =
      ⟨(Tile38.set env.tileSet s.geo "drivers" req.id req.lat req.lng).2,
        (Mongo.updateOne env.updateOne s.docs req.id req.lat req.lng "driver").2⟩ := by
  unfold addDriver
  rcases h : Mongo.updateOne env.updateOne s.docs req.id req.lat req.lng "driver" with
    ⟨_ | e, docs⟩ <;> simp [h]

theorem addDriver_response (env : Faults) (req : PointReq) (s : State)
    (h : env.updateOne = none) :
    (addDriver env (.ok req) s).1 = .json 200 "message" "Driver added/updated" := by
  simp [addDriver, Mongo.updateOne, h]

theorem addDelivery_state (env : Faults) (req : PointReq) (s : State) (e : CallErr)
    (h : Mongo.findOne env.findOne s.docs req.id = .error e) :
    (addDelivery env (.ok req) s).2 =
      ⟨(Tile38.set env.tileSet s.geo "deliveries" req.id req.lat req.lng).2,
        (Mongo.insertOne env.insertOne s.docs ⟨req.id, req.lat, req.lng, "delivery"⟩).2⟩ := by
  unfold addDelivery
  simp only [h]
  rcases h2 : Mongo.insertOne env.insertOne s.docs ⟨req.id, req.lat, req.lng, "delivery"⟩ with
    ⟨_ | e, docs⟩ <;> simp

theorem addDelivery_rejected (env : Faults) (req : PointReq) (s : State) (d : Doc)
    (h : Mongo.findOne env.findOne s.docs req.id = .ok d) :
    addDelivery env (.ok req) s = (duplicateId, s) := by
  unfold addDelivery
  simp only [h]

theorem addStore_state (env : Faults) (s : State) (e : CallErr)
    (h : Mongo.findOne env.findOne s.docs storeID = .error e) :
    (addStore env s).2 =
      ⟨(Tile38.set env.tileSet s.geo "stores" storeID storeLat storeLng).2,
        (Mongo.insertOne env.insertOne s.docs ⟨storeID, storeLat, storeLng, "store"⟩).2⟩ := by
  unfold addStore
  simp only [h]
  rcases h2 : Mongo.insertOne env.insertOne s.docs ⟨storeID, storeLat, storeLng, "store"⟩ with
    ⟨_ | e, docs⟩ <;> simp

theorem addStore_rejected (env : Faults) (s : State) (d : Doc)
    (h : Mongo.findOne env.findOne s.docs storeID = .ok d) :
    addStore env s = (duplicateId, s) := by
  unfold addStore
  simp only [h]

theorem deleteDriver_state (env : Faults) (req : IdReq) (s : State) :
    (deleteDriver env (.ok req) s).2 = ⟨(Tile38.del env.tileDel s.geo "drivers" req.id).2, s.docs⟩ := by
  unfold deleteDriver
  rcases h : Tile38.del env.tileDel s.geo "drivers" req.id with ⟨_ | e, geo⟩ <;> simp [h]

theorem deleteDelivery_state (env : Faults) (req : IdReq) (s : State) :
    (deleteDelivery env (.ok req) s).2 =
      ⟨(Tile38.del env.tileDel s.geo "deliveries" req.id).2, s.docs⟩ := by
  unfold deleteDelivery
  rcases h : Tile38.del env.tileDel s.geo "deliveries" req.id with ⟨_ | e, geo⟩ <;> simp [h]

theorem deleteStore_state_ok (env : Faults) (req : IdReq) (s : State) (h : env.tileDel = none) :
    (deleteStore env (.ok req) s).2 =
      ⟨s.geo.filter (fun o => !Tile38.isAt "stores" req.id o),
        (Mongo.deleteOne env.deleteOne s.docs req.id "store").2⟩ := by
  unfold deleteStore
  simp only [Tile38.del, h]
  rcases h2 : Mongo.deleteOne env.deleteOne s.docs req.id "store" with ⟨_ | e, docs⟩ <;> simp

theorem absent_of_findOne_error (docs : List Doc) (id : String) (e : CallErr)
    (h : Mongo.findOne none docs id = .error e) : id ∉ docs.map (fun d => d.id) := by
  intro hmem
  rw [List.mem_map] at hmem
  obtain ⟨d, hd, hid⟩ := hmem
  obtain ⟨x, hx⟩ := (Mongo.findOne_eq_ok_iff docs id).mpr ⟨d, hd, hid⟩
  rw [hx] at h
  cases h

theorem guarded_of_geo_shrinks (s : State) (g : List GeoObject) (h : Guarded s)
    (hsub : ∀ k i, Tile38.held g k i = true → Tile38.held s.geo k i = true) :
    Guarded ⟨g, s.docs⟩ := by
  obtain ⟨h1, h2, h3⟩ := h
  exact ⟨fun i hi => h1 i (hsub _ _ hi), fun i hi => h2 i (hsub _ _ hi),
    fun i hi => h3 i ⟨hsub _ _ hi.1, hsub _ _ hi.2⟩⟩

theorem held_del_ok (g : List GeoObject) (key id k i : String)
    (h : Tile38.held (Tile38.del none g key id).2 k i = true) : Tile38.held g k i = true :=
  ((Tile38.held_filter_not_isAt key id g k i).mp h).1

theorem guarded_addDriver (req : PointReq) (s : State) (h : Guarded s) :
    Guarded (addDriver Faults.ok (.ok req) s).2 := by
  rw [addDriver_state]
  obtain ⟨h1, h2, h3⟩ := h
  have hheld : ∀ k i, k ≠ "drivers" →
      Tile38.held (Tile38.set Faults.ok.tileSet s.geo "drivers" req.id req.lat req.lng).2 k i
        = true → Tile38.held s.geo k i = true := by
    intro k i hk hi
    rcases (Tile38.held_upsertPoint "drivers" req.id _ s.geo k i).mp hi with h | h
    · exact h
    · exact absurd h.1 hk
  have hdocs : ∀ d ∈ s.docs, ∃ d2 ∈ Mongo.upsertFields req.id req.lat req.lng "driver" s.docs,
      d2.id = d.id ∧ (d.type ≠ "store" → d2.type ≠ "store") := by
    intro d hd
    by_cases hid : d.id = req.id
    · exact ⟨⟨req.id, req.lat, req.lng, "driver"⟩, Mongo.mem_upsertFields_self _ _ _ _ _,
        hid.symm, fun _ => by simp⟩
    · exact ⟨d, Mongo.mem_upsertFields_of_mem _ _ _ _ _ d hd hid, rfl, fun h => h⟩
  refine ⟨?_, ?_, ?_⟩
  · intro i hi
    obtain ⟨d, hd, hdi, hdt⟩ := h1 i (hheld _ i (by decide) hi)
    obtain ⟨d2, hd2, h2i, h2t⟩ := hdocs d hd
    exact ⟨d2, hd2, h2i.trans hdi, h2t hdt⟩
  · intro i hi
    obtain ⟨d, hd, hdi⟩ := h2 i (hheld _ i (by decide) hi)
    obtain ⟨d2, hd2, h2i, -⟩ := hdocs d hd
    exact ⟨d2, hd2, h2i.trans hdi⟩
  · intro i hi
    exact h3 i ⟨hheld _ i (by decide) hi.1, hheld _ i (by decide) hi.2⟩

theorem guarded_addDelivery (req : PointReq) (s : State) (h : Guarded s) :
    Guarded (addDelivery Faults.ok (.ok req) s).2 := by
  cases hf : Mongo.findOne Faults.ok.findOne s.docs req.id with
  | ok d => rw [addDelivery_rejected _ req s d hf]; exact h
  | error e =>
    rw [addDelivery_state _ req s e hf]
    have habs := absent_of_findOne_error s.docs req.id e hf
    obtain ⟨h1, h2, h3⟩ := h
    have hstores : ∀ i,
        Tile38.held (Tile38.set Faults.ok.tileSet s.geo "deliveries" req.id req.lat req.lng).2
          "stores" i = true → Tile38.held s.geo "stores" i = true := by
      intro i hi
      rcases (Tile38.held_upsertPoint "deliveries" req.id _ s.geo "stores" i).mp hi with h | h
      · exact h
      · exact absurd h.1 (by decide)
    have hdeliv : ∀ i,
        Tile38.held (Tile38.set Faults.ok.tileSet s.geo "deliveries" req.id req.lat req.lng).2
          "deliveries" i = true → Tile38.held s.geo "deliveries" i = true ∨ i = req.id := by
      intro i hi
      rcases (Tile38.held_upsertPoint "deliveries" req.id _ s.geo "deliveries" i).mp hi with h | h
      · exact Or.inl h
      · exact Or.inr h.2
    have hmem : ∀ d ∈ s.docs,
        d ∈ (Mongo.insertOne Faults.ok.insertOne s.docs
          ⟨req.id, req.lat, req.lng, "delivery"⟩).2 := by
      intro d hd
      exact List.mem_append_left _ hd
    have hnew : (⟨req.id, req.lat, req.lng, "delivery"⟩ : Doc) ∈
        (Mongo.insertOne Faults.ok.insertOne s.docs ⟨req.id, req.lat, req.lng, "delivery"⟩).2 :=
      List.mem_append_right _ (List.mem_singleton_self _)
    refine ⟨?_, ?_, ?_⟩
    · intro i hi
      rcases hdeliv i hi with hold | hnewid
      · obtain ⟨d, hd, hdi, hdt⟩ := h1 i hold
        exact ⟨d, hmem d hd, hdi, hdt⟩
      · exact ⟨_, hnew, hnewid.symm, by simp⟩
    · intro i hi
      obtain ⟨d, hd, hdi⟩ := h2 i (hstores i hi)
      exact ⟨d, hmem d hd, hdi⟩
    · intro i hi
      rcases hdeliv i hi.1 with hold | hnewid
      · exact h3 i ⟨hold, hstores i hi.2⟩
      · obtain ⟨d, hd, hdi⟩ := h2 i (hstores i hi.2)
        apply habs
        rw [List.mem_map]
        exact ⟨d, hd, hdi.trans hnewid⟩

theorem guarded_addStore (s : State) (h : Guarded s) : Guarded (addStore Faults.ok s).2 := by
  cases hf : Mongo.findOne Faults.ok.findOne s.docs storeID with
  | ok d => rw [addStore_rejected _ s d hf]; exact h
  | error e =>
    rw [addStore_state _ s e hf]
    have habs := absent_of_findOne_error s.docs storeID e hf
    obtain ⟨h1, h2, h3⟩ := h
    have hdeliv : ∀ i,
        Tile38.held (Tile38.set Faults.ok.tileSet s.geo "stores" storeID storeLat storeLng).2
          "deliveries" i = true → Tile38.held s.geo "deliveries" i = true := by
      intro i hi
      rcases (Tile38.held_upsertPoint "stores" storeID _ s.geo "deliveries" i).mp hi with h | h
      · exact h
      · exact absurd h.1 (by decide)
    have hstores : ∀ i,
        Tile38.held (Tile38.set Faults.ok.tileSet s.geo "stores" storeID storeLat storeLng).2
          "stores" i = true → Tile38.held s.geo "stores" i = true ∨ i = storeID := by
      intro i hi
      rcases (Tile38.held_upsertPoint "stores" storeID _ s.geo "stores" i).mp hi with h | h
      · exact Or.inl h
      · exact Or.inr h.2
    have hmem : ∀ d ∈ s.docs,
        d ∈ (Mongo.insertOne Faults.ok.insertOne s.docs
          ⟨storeID, storeLat, storeLng, "store"⟩).2 := by
      intro d hd
      exact List.mem_append_left _ hd
    have hnew : (⟨storeID, storeLat, storeLng, "store"⟩ : Doc) ∈
        (Mongo.insertOne Faults.ok.insertOne s.docs ⟨storeID, storeLat, storeLng, "store"⟩).2 :=
      List.mem_append_right _ (List.mem_singleton_self _)
    refine ⟨?_, ?_, ?_⟩
    · intro i hi
      obtain ⟨d, hd, hdi, hdt⟩ := h1 i (hdeliv i hi)
      exact ⟨d, hmem d hd, hdi, hdt⟩
    · intro i hi
      rcases hstores i hi with hold | hnewid
      · obtain ⟨d, hd, hdi⟩ := h2 i hold
        exact ⟨d, hmem d hd, hdi⟩
      · exact ⟨_, hnew, hnewid.symm⟩
    · intro i hi
      rcases hstores i hi.2 with hold | hnewid
      · exact h3 i ⟨hdeliv i hi.1, hold⟩
      · obtain ⟨d, hd, hdi, -⟩ := h1 i (hdeliv i hi.1)
        apply habs
        rw [List.mem_map]
        exact ⟨d, hd, hdi.trans hnewid⟩

theorem guarded_deleteStore (req : IdReq) (s : State) (h : Guarded s) :
    Guarded (deleteStore Faults.ok (.ok req) s).2 := by
  rw [deleteStore_state_ok _ req s rfl]
  obtain ⟨h1, h2, h3⟩ := h
  have hheld : ∀ k i,
      Tile38.held (s.geo.filter (fun o => !Tile38.isAt "stores" req.id o)) k i = true →
        Tile38.held s.geo k i = true ∧ ¬ (k = "stores" ∧ i = req.id) :=
    fun k i hi => (Tile38.held_filter_not_isAt "stores" req.id s.geo k i).mp hi
  refine ⟨?_, ?_, ?_⟩
  · intro i hi
    obtain ⟨d, hd, hdi, hdt⟩ := h1 i (hheld _ i hi).1
    exact ⟨d, Mongo.mem_eraseFirst_of_mem _ _ _ d hd (fun hm => hdt hm.2), hdi, hdt⟩
  · intro i hi
    obtain ⟨hold, hne⟩ := hheld _ i hi
    obtain ⟨d, hd, hdi⟩ := h2 i hold
    refine ⟨d, Mongo.mem_eraseFirst_of_mem _ _ _ d hd (fun hm => hne ⟨rfl, ?_⟩), hdi⟩
    exact hdi.symm.trans hm.1
  · intro i hi
    exact h3 i ⟨(hheld _ i hi.1).1, (hheld _ i hi.2).1⟩

theorem guarded_serve (op : Op) (s : State) (h : Guarded s) :
    Guarded (serve Faults.ok op s).2 := by
  cases op with
  | addDriver b =>
    cases b with
    | error msg => exact h
    | ok req => exact guarded_addDriver req s h
  | updateDriverLocation b =>
    cases b with
    | error msg => exact h
    | ok req => exact guarded_addDriver req s h
  | addDelivery b =>
    cases b with
    | error msg => exact h
    | ok req => exact guarded_addDelivery req s h
  | addStore => exact guarded_addStore s h
  | deleteDriver b =>
    cases b with
    | error msg => exact h
    | ok req =>
      show Guarded (deleteDriver Faults.ok (.ok req) s).2
      rw [deleteDriver_state]
      exact guarded_of_geo_shrinks s _ h (fun k i hi => held_del_ok s.geo _ _ k i hi)
  | deleteDelivery b =>
    cases b with
    | error msg => exact h
    | ok req =>
      show Guarded (deleteDelivery Faults.ok (.ok req) s).2
      rw [deleteDelivery_state]
      exact guarded_of_geo_shrinks s _ h (fun k i hi => held_del_ok s.geo _ _ k i hi)
  | deleteStore b =>
    cases b with
    | error msg => exact h
    | ok req => exact guarded_deleteStore req s h

theorem guarded_of_reachable (s : State) (h : Reachable AllOk s) : Guarded s := by
  induction h with
  | init =>
    refine ⟨?_, ?_, ?_⟩ <;> intro i hi <;> simp [State.empty, Tile38.held] at hi
  | step env op s hP _ ih =>
    unfold AllOk at hP
    subst hP
    exact guarded_serve op s ih

/-! ## The create-once protocol: `addDelivery`, `addStore` -/

/-- C1, as stated, fails: the collection holds a driver document with id `"a"`,
MongoDB is unreachable (the lookup and the insert return errors) and Tile38
answers.  `addDelivery("a", (1, 2))` does not report the duplicate id: it
answers 500 and has written the point under `"deliveries"` into the index. -/
theorem addDelivery_existing_id_lookup_error :
    (∃ d ∈ oneDriverDoc.docs, d.id = "a") ∧
    addDelivery mongoDown (.ok ⟨"a", 1, 2⟩) oneDriverDoc =
      (.json 500 "error" "Failed to store delivery",
        ⟨[⟨"deliveries", "a", ⟨1, 2⟩⟩], oneDriverDoc.docs⟩) ∧
    addDelivery mongoDown (.ok ⟨"a", 1, 2⟩) oneDriverDoc ≠ (duplicateId, oneDriverDoc) := by
  refine ⟨⟨⟨"a", 0, 0, "driver"⟩, by simp [oneDriverDoc], rfl⟩, rfl, ?_⟩
  simp [addDelivery, mongoDown, oneDriverDoc, Mongo.findOne, Mongo.insertOne, duplicateId]

/-- C1, amended: for every id, position and state in which the collection holds
a document with that id (of any type), when the existence lookup returns
without a client error, `addDelivery` answers 400 "ID already exists for
another entity" and both stores are as before. -/
theorem addDelivery_rejects_existing_id (env : Faults) (id : String) (lat lng : Coord)
    (s : State) (hlookup : LookupOk env) (hheld : ∃ d ∈ s.docs, d.id = id) :
    addDelivery env (.ok ⟨id, lat, lng⟩) s =
      (.json 400 "error" "ID already exists for another entity", s) := by
  obtain ⟨d, hd⟩ := (Mongo.findOne_eq_ok_iff s.docs id).mpr hheld
  unfold LookupOk at hlookup
  exact addDelivery_rejected env ⟨id, lat, lng⟩ s d (by rw [hlookup]; exact hd)

/-- Instance of `addDelivery_rejects_existing_id`: the id `"a"` is held by a driver
document and every call succeeds. -/
theorem addDelivery_rejects_existing_id_witness :
    (LookupOk Faults.ok ∧ ∃ d ∈ oneDriverDoc.docs, d.id = "a") ∧
    addDelivery Faults.ok (.ok ⟨"a", 1, 2⟩) oneDriverDoc =
      (.json 400 "error" "ID already exists for another entity", oneDriverDoc) :=
  ⟨⟨rfl, ⟨"a", 0, 0, "driver"⟩, by simp [oneDriverDoc], rfl⟩,
    addDelivery_rejects_existing_id Faults.ok "a" 1 2 oneDriverDoc rfl
      ⟨⟨"a", 0, 0, "driver"⟩, by simp [oneDriverDoc], rfl⟩⟩

/-- C6, as stated, fails: `addStore` never reads an id from the request.  After
a successful `addDelivery("a", (1, 2))` on empty stores, `addStore` answers 200
and writes the demo store `"store1"` into both stores. -/
theorem addStore_after_addDelivery_other_id :
    (addDelivery Faults.ok (.ok ⟨"a", 1, 2⟩) State.empty).1 =
      .json 200 "message" "Delivery added" ∧
    addStore Faults.ok (addDelivery Faults.ok (.ok ⟨"a", 1, 2⟩) State.empty).2 =
      (.json 200 "message" "Store location added",
        ⟨[⟨"deliveries", "a", ⟨1, 2⟩⟩, ⟨"stores", "store1", ⟨storeLat, storeLng⟩⟩],
          [⟨"a", 1, 2, "delivery"⟩, ⟨"store1", storeLat, storeLng, "store"⟩]⟩) ∧
    (addStore Faults.ok (addDelivery Faults.ok (.ok ⟨"a", 1, 2⟩) State.empty).2).2 ≠
      (addDelivery Faults.ok (.ok ⟨"a", 1, 2⟩) State.empty).2 := by
  refine ⟨rfl, rfl, ?_⟩
  simp [addStore, addDelivery, Faults.ok, State.empty, Mongo.findOne, Mongo.insertOne, storeID,
    Tile38.set, Tile38.upsertPoint, Tile38.isAt]

/-- C6, amended: for the id `"store1"`, the only id `addStore` uses, after a
successful `addDelivery("store1", position)` a call of `addStore` whose
existence lookup returns without a client error answers 400 "ID already exists
for another entity" and leaves both stores as they were. -/
theorem addStore_rejected_after_addDelivery (env1 env2 : Faults) (lat lng : Coord) (s : State)
    (hadd : (addDelivery env1 (.ok ⟨storeID, lat, lng⟩) s).1 =
      .json 200 "message" "Delivery added")
    (hlookup : LookupOk env2) :
    addStore env2 (addDelivery env1 (.ok ⟨storeID, lat, lng⟩) s).2 =
      (.json 400 "error" "ID already exists for another entity",
        (addDelivery env1 (.ok ⟨storeID, lat, lng⟩) s).2) := by
  unfold LookupOk at hlookup
  cases hf : Mongo.findOne env1.findOne s.docs storeID with
  | ok d =>
    rw [addDelivery_rejected env1 ⟨storeID, lat, lng⟩ s d hf] at hadd
    simp [duplicateId] at hadd
  | error e =>
    cases hi : env1.insertOne with
    | some e2 =>
      simp [addDelivery, hf, Mongo.insertOne, hi] at hadd
    | none =>
      have hst := addDelivery_state env1 ⟨storeID, lat, lng⟩ s e hf
      simp only [Mongo.insertOne, hi] at hst
      obtain ⟨d, hd⟩ := (Mongo.findOne_eq_ok_iff
        (addDelivery env1 (.ok ⟨storeID, lat, lng⟩) s).2.docs storeID).mpr
          ⟨⟨storeID, lat, lng, "delivery"⟩, by rw [hst]; simp, rfl⟩
      exact addStore_rejected env2 _ d (by rw [hlookup]; exact hd)

/-- Instance of `addStore_rejected_after_addDelivery`: a delivery with the id
`"store1"` is added to empty stores, every call succeeding. -/
theorem addStore_rejected_after_addDelivery_witness :
    ((addDelivery Faults.ok (.ok ⟨storeID, 1, 2⟩) State.empty).1 =
      .json 200 "message" "Delivery added" ∧ LookupOk Faults.ok) ∧
    addStore Faults.ok (addDelivery Faults.ok (.ok ⟨storeID, 1, 2⟩) State.empty).2 =
      (.json 400 "error" "ID already exists for another entity",
        (addDelivery Faults.ok (.ok ⟨storeID, 1, 2⟩) State.empty).2) :=
  ⟨⟨rfl, rfl⟩, addStore_rejected_after_addDelivery Faults.ok Faults.ok 1 2 State.empty rfl rfl⟩

/-- C9, as stated, fails: on empty stores the pre-check finds nothing and the
collection rejects the insert as a duplicate.  `addDelivery("a", (1, 2))`
answers 500 "Failed to store delivery", not the 400 of the pre-check, and the
point written into the index before the insert stays, while a pre-check
rejection writes nothing. -/
theorem addDelivery_insert_duplicate_differs :
    addDelivery insertDuplicate (.ok ⟨"a", 1, 2⟩) State.empty =
      (.json 500 "error" "Failed to store delivery",
        ⟨[⟨"deliveries", "a", ⟨1, 2⟩⟩], []⟩) ∧
    (addDelivery insertDuplicate (.ok ⟨"a", 1, 2⟩) State.empty).1 ≠ duplicateId ∧
    (addDelivery insertDuplicate (.ok ⟨"a", 1, 2⟩) State.empty).2 ≠ State.empty := by
  refine ⟨rfl, ?_, ?_⟩ <;>
  simp [addDelivery, insertDuplicate, State.empty, Mongo.findOne, Mongo.insertOne, duplicateId,
    Tile38.set, Tile38.upsertPoint]

/-- C9, amended: when `addDelivery` passes the pre-check and `InsertOne`
rejects the document (as a duplicate or with any other error), the caller gets
500 "Failed to store delivery"; the collection is as before and the index is
what the `Set` issued before the insert left: with the point under
`("deliveries", id)` when the `Set` succeeded. -/
theorem addDelivery_insert_rejected (env : Faults) (id : String) (lat lng : Coord) (s : State)
    (e e2 : CallErr) (hpre : Mongo.findOne env.findOne s.docs id = .error e)
    (hins : env.insertOne = some e2) :
    addDelivery env (.ok ⟨id, lat, lng⟩) s =
      (.json 500 "error" "Failed to store delivery",
        ⟨(Tile38.set env.tileSet s.geo "deliveries" id lat lng).2, s.docs⟩) ∧
    (env.tileSet = none →
      (⟨"deliveries", id, ⟨lat, lng⟩⟩ : GeoObject) ∈
        (addDelivery env (.ok ⟨id, lat, lng⟩) s).2.geo) := by
  have hres : addDelivery env (.ok ⟨id, lat, lng⟩) s =
      (.json 500 "error" "Failed to store delivery",
        ⟨(Tile38.set env.tileSet s.geo "deliveries" id lat lng).2, s.docs⟩) := by
    simp [addDelivery, hpre, Mongo.insertOne, hins]
  refine ⟨hres, ?_⟩
  intro hset
  rw [hres, hset]
  exact Tile38.mem_upsertPoint_self _ _ _ _

/-- Instance of `addDelivery_insert_rejected`: empty stores, the insert rejected
with a duplicate-key error. -/
theorem addDelivery_insert_rejected_witness :
    (Mongo.findOne insertDuplicate.findOne State.empty.docs "a" = .error .errNoDocuments ∧
      insertDuplicate.insertOne = some .duplicateKey) ∧
    addDelivery insertDuplicate (.ok ⟨"a", 1, 2⟩) State.empty =
      (.json 500 "error" "Failed to store delivery",
        ⟨(Tile38.set insertDuplicate.tileSet State.empty.geo "deliveries" "a" 1 2).2,
          State.empty.docs⟩) ∧
    (insertDuplicate.tileSet = none →
      (⟨"deliveries", "a", ⟨1, 2⟩⟩ : GeoObject) ∈
        (addDelivery insertDuplicate (.ok ⟨"a", 1, 2⟩) State.empty).2.geo) :=
  ⟨⟨rfl, rfl⟩,
    addDelivery_insert_rejected insertDuplicate "a" 1 2 State.empty .errNoDocuments
      .duplicateKey rfl rfl⟩

/-- C10: in `addDelivery` and in `addStore`, whenever the existence lookup
returns an error (a client error, which the lookup returns whatever the
collection holds, as well as "no documents"), the handler goes on: the state
after the call is the index after the `Set` and the collection after the
`InsertOne`, and the answer is 200 when the insert succeeded and 500 when it
did not; when the `Set` succeeded the point is in the index. -/
theorem lookup_error_means_absent (env : Faults) (id : String) (lat lng : Coord) (s : State) :
    (∀ e, env.findOne = some e → Mongo.findOne env.findOne s.docs id = .error e) ∧
    (∀ e, Mongo.findOne env.findOne s.docs id = .error e →
      addDelivery env (.ok ⟨id, lat, lng⟩) s =
        (if env.insertOne = none then .json 200 "message" "Delivery added"
          else .json 500 "error" "Failed to store delivery",
          ⟨(Tile38.set env.tileSet s.geo "deliveries" id lat lng).2,
            (Mongo.insertOne env.insertOne s.docs ⟨id, lat, lng, "delivery"⟩).2⟩)) ∧
    (∀ e, Mongo.findOne env.findOne s.docs storeID = .error e →
      addStore env s =
        (if env.insertOne = none then .json 200 "message" "Store location added"
          else .json 500 "error" "Failed to store store location",
          ⟨(Tile38.set env.tileSet s.geo "stores" storeID storeLat storeLng).2,
            (Mongo.insertOne env.insertOne s.docs ⟨storeID, storeLat, storeLng, "store"⟩).2⟩)) ∧
    (env.tileSet = none →
      (∀ e, Mongo.findOne env.findOne s.docs id = .error e →
        (⟨"deliveries", id, ⟨lat, lng⟩⟩ : GeoObject) ∈
          (addDelivery env (.ok ⟨id, lat, lng⟩) s).2.geo) ∧
      (∀ e, Mongo.findOne env.findOne s.docs storeID = .error e →
        (⟨"stores", storeID, ⟨storeLat, storeLng⟩⟩ : GeoObject) ∈ (addStore env s).2.geo)) := by
  refine ⟨?_, ?_, ?_, ?_⟩
  · intro e he
    simp [Mongo.findOne, he]
  · intro e he
    cases hi : env.insertOne <;> simp [addDelivery, he, Mongo.insertOne, hi]
  · intro e he
    cases hi : env.insertOne <;> simp [addStore, he, Mongo.insertOne, hi]
  · intro hset
    constructor
    · intro e he
      rw [addDelivery_state env ⟨id, lat, lng⟩ s e he, hset]
      exact Tile38.mem_upsertPoint_self _ _ _ _
    · intro e he
      rw [addStore_state env s e he, hset]
      exact Tile38.mem_upsertPoint_self _ _ _ _

/-- Instance of `lookup_error_means_absent`: the collection holds the id `"a"`,
the lookup fails with a client error and the insert succeeds; the delivery is
added next to the driver document of the same id. -/
theorem lookup_error_means_absent_witness :
    (∃ d ∈ oneDriverDoc.docs, d.id = "a") ∧
    addDelivery lookupFails (.ok ⟨"a", 1, 2⟩) oneDriverDoc =
      (.json 200 "message" "Delivery added",
        ⟨[⟨"deliveries", "a", ⟨1, 2⟩⟩], [⟨"a", 0, 0, "driver"⟩, ⟨"a", 1, 2, "delivery"⟩]⟩) :=
  ⟨⟨⟨"a", 0, 0, "driver"⟩, by simp [oneDriverDoc], rfl⟩,
    ((lookup_error_means_absent lookupFails "a" 1 2 oneDriverDoc).2.1 .unavailable
      ((lookup_error_means_absent lookupFails "a" 1 2 oneDriverDoc).1 .unavailable rfl)).trans
      rfl⟩

/-! ## `addDriver` -/

/-- C2, at the failing input: Tile38 rejects the `Set` and MongoDB accepts the
upsert.  The full variant's `addDriver` answers 200 "Driver added/updated" with
nothing written to the index, where `addDriver` of `src/main.go` answers 500
for the same failed `Set`. -/
theorem addDriver_ok_although_set_failed :
    addDriver tileSetFails (.ok ⟨"d1", 1, 2⟩) State.empty =
      (.json 200 "message" "Driver added/updated", ⟨[], [⟨"d1", 1, 2, "driver"⟩]⟩) ∧
    Minimal.addDriver tileSetFails (.ok ⟨"d1", 1, 2⟩) [] =
      (.json 500 "error" "Failed to store driver", []) :=
  ⟨rfl, rfl⟩

/-! ## `findNearestDriver` -/

/-- What `findNearestDriver` answers with a 200 is an object of the index under
`"drivers"`, within the radius, and no driver within the radius is nearer. -/
theorem findNearestDriver_ok (dist : Point → Point → Rat) (env : Faults)
    (bind : Except String OriginReq) (s : State) (id : String)
    (h : findNearestDriver dist env bind s = .json 200 "driver_id" id) :
    ∃ req o, bind = .ok req ∧ o ∈ s.geo ∧ o.key = "drivers" ∧ o.id = id ∧
      ∀ x ∈ s.geo, x.key = "drivers" → dist ⟨req.lat, req.lng⟩ x.point ≤ 10000 →
        dist ⟨req.lat, req.lng⟩ o.point ≤ dist ⟨req.lat, req.lng⟩ x.point := by
  cases bind with
  | error msg => simp [findNearestDriver, badRequest] at h
  | ok req =>
    unfold findNearestDriver at h
    cases hn : env.tileNearby with
    | some e => simp [Tile38.nearby, hn] at h
    | none =>
      simp only [Tile38.nearby, hn] at h
      split at h
      · rename_i heq; cases heq
      · simp at h
      · rename_i o t heq
        have heq2 := Except.ok.inj heq
        obtain ⟨hmem, hmin⟩ := Tile38.head_sortByDist _ _ _ o t heq2
        rw [List.mem_filter] at hmem
        simp only [Bool.and_eq_true, decide_eq_true_eq] at hmem
        refine ⟨req, o, rfl, hmem.1, hmem.2.1, ?_, ?_⟩
        · simpa using h
        · intro x hx hk hr
          apply hmin
          rw [List.mem_filter]
          simp only [Bool.and_eq_true, decide_eq_true_eq]
          exact ⟨hx, hk, hr⟩

/-- A search that succeeds answers with a driver when one is within the
radius. -/
theorem findNearestDriver_some (dist : Point → Point → Rat) (env : Faults)
    (req : OriginReq) (s : State) (o : GeoObject) (hnear : env.tileNearby = none)
    (ho : o ∈ s.geo) (hk : o.key = "drivers")
    (hr : dist ⟨req.lat, req.lng⟩ o.point ≤ 10000) :
    ∃ id, findNearestDriver dist env (.ok req) s = .json 200 "driver_id" id := by
  have hcand : o ∈ s.geo.filter (fun o => decide (o.key = "drivers") &&
      decide (dist ⟨req.lat, req.lng⟩ o.point ≤ 10000)) := by
    rw [List.mem_filter]
    simp only [Bool.and_eq_true, decide_eq_true_eq]
    exact ⟨ho, hk, hr⟩
  have hne := Tile38.sortByDist_take_ne_nil
    (fun o => dist ⟨req.lat, req.lng⟩ o.point) _ 0 o hcand
  unfold findNearestDriver
  simp only [Tile38.nearby, hnear]
  split
  · rename_i heq; cases heq
  · rename_i heq
    exact absurd (Except.ok.inj heq) hne
  · rename_i x t heq
    exact ⟨x.id, rfl⟩

/-- C3, as stated, fails on a tie: driver `"a"` is registered at `(1, 1)`, then
`addDriver("b", (1, 1))` succeeds.  No driver is strictly closer to `(1, 1)`
than `"b"`, yet `findNearestDriver((1, 1))` answers `"a"`, the driver that
stands first in the index. -/
theorem findNearestDriver_tie_answers_first :
    (addDriver Faults.ok (.ok ⟨"b", 1, 1⟩) driverAtOrigin).1 =
      .json 200 "message" "Driver added/updated" ∧
    (∀ o ∈ (addDriver Faults.ok (.ok ⟨"b", 1, 1⟩) driverAtOrigin).2.geo,
      o.key = "drivers" → o.id ≠ "b" → ¬ gapDist ⟨1, 1⟩ o.point < gapDist ⟨1, 1⟩ ⟨1, 1⟩) ∧
    findNearestDriver gapDist Faults.ok (.ok ⟨1, 1⟩)
      (addDriver Faults.ok (.ok ⟨"b", 1, 1⟩) driverAtOrigin).2 = .json 200 "driver_id" "a" ∧
    findNearestDriver gapDist Faults.ok (.ok ⟨1, 1⟩)
      (addDriver Faults.ok (.ok ⟨"b", 1, 1⟩) driverAtOrigin).2 ≠ .json 200 "driver_id" "b" := by
  refine ⟨rfl, ?_, ?_, ?_⟩ <;>
  simp [findNearestDriver, addDriver, Faults.ok, driverAtOrigin, Tile38.nearby, Tile38.set,
    Tile38.upsertPoint, Mongo.updateOne, Mongo.upsertFields, Tile38.sortByDist,
    Tile38.insertByDist, Tile38.isAt, gapDist]

/-- C3, amended: for every id, position and prior state, when the `Set`, the
upsert and the search succeed, the added driver is within the radius of its own
position, and every other driver of the index is strictly farther from
`(lat, lng)` than the added driver, `addDriver(id, lat, lng)` answers 200 and
`findNearestDriver(lat, lng)` right after it answers 200 with that id. -/
theorem addDriver_then_findNearestDriver (dist : Point → Point → Rat) (env1 env2 : Faults)
    (id : String) (lat lng : Coord) (s : State)
    (hset : env1.tileSet = none) (hupd : env1.updateOne = none)
    (hnear : env2.tileNearby = none)
    (hself : dist ⟨lat, lng⟩ ⟨lat, lng⟩ ≤ 10000)
    (hfar : ∀ o ∈ s.geo, o.key = "drivers" → o.id ≠ id →
      dist ⟨lat, lng⟩ ⟨lat, lng⟩ < dist ⟨lat, lng⟩ o.point) :
    (addDriver env1 (.ok ⟨id, lat, lng⟩) s).1 = .json 200 "message" "Driver added/updated" ∧
    findNearestDriver dist env2 (.ok ⟨lat, lng⟩) (addDriver env1 (.ok ⟨id, lat, lng⟩) s).2 =
      .json 200 "driver_id" id := by
  refine ⟨addDriver_response env1 _ s hupd, ?_⟩
  have hgeo : (addDriver env1 (.ok ⟨id, lat, lng⟩) s).2.geo =
      Tile38.upsertPoint "drivers" id ⟨lat, lng⟩ s.geo := by
    rw [addDriver_state]
    simp [Tile38.set, hset]
  have hnew : (⟨"drivers", id, ⟨lat, lng⟩⟩ : GeoObject) ∈
      (addDriver env1 (.ok ⟨id, lat, lng⟩) s).2.geo := by
    rw [hgeo]
    exact Tile38.mem_upsertPoint_self _ _ _ _
  obtain ⟨id2, hid2⟩ := findNearestDriver_some dist env2 ⟨lat, lng⟩ _ _ hnear hnew rfl hself
  obtain ⟨req, o, hreq, ho, hk, hoid, hmin⟩ := findNearestDriver_ok dist env2 _ _ id2 hid2
  cases hreq
  have hle := hmin _ hnew rfl hself
  rw [hid2]
  by_cases hsame : id2 = id
  · rw [hsame]
  · exfalso
    rw [hgeo] at ho
    rcases Tile38.mem_upsertPoint _ _ _ _ o ho with hold | hnewo
    · have := hfar o hold hk (by rw [hoid]; exact hsame)
      exact absurd hle (not_le_of_lt this)
    · rw [hnewo] at hoid
      exact hsame hoid.symm

/-- Instance of `addDriver_then_findNearestDriver`: driver `"a"` stands at
`(5, 5)`, driver `"b"` is added at `(1, 1)` and found from there. -/
theorem addDriver_then_findNearestDriver_witness :
    (Faults.ok.tileSet = none ∧ Faults.ok.updateOne = none ∧ Faults.ok.tileNearby = none ∧
      gapDist ⟨1, 1⟩ ⟨1, 1⟩ ≤ 10000 ∧
      ∀ o ∈ driverFarAway.geo, o.key = "drivers" → o.id ≠ "b" →
        gapDist ⟨1, 1⟩ ⟨1, 1⟩ < gapDist ⟨1, 1⟩ o.point) ∧
    ((addDriver Faults.ok (.ok ⟨"b", 1, 1⟩) driverFarAway).1 =
      .json 200 "message" "Driver added/updated" ∧
    findNearestDriver gapDist Faults.ok (.ok ⟨1, 1⟩)
      (addDriver Faults.ok (.ok ⟨"b", 1, 1⟩) driverFarAway).2 = .json 200 "driver_id" "b") :=
  ⟨⟨rfl, rfl, rfl, by simp [gapDist], by simp [driverFarAway, gapDist]; norm_num⟩,
    addDriver_then_findNearestDriver gapDist Faults.ok Faults.ok "b" 1 1 driverFarAway rfl rfl rfl
      (by simp [gapDist]) (by simp [driverFarAway, gapDist]; norm_num)⟩

/-! ## The delete handlers -/

/-- C7: for every id, position and prior state, when the `Set`, the upsert and
the `Del` succeed, `deleteDriver(id)` after `addDriver(id, position)` answers
200 and removes `("drivers", id)`, which the index held, so that
`findNearestDriver` answers that id for no request, whatever the search
returns; the collection is exactly as `addDriver` left it, the driver's
document is in it and `getAllLocations` lists it. -/
theorem deleteDriver_after_addDriver (dist : Point → Point → Rat) (env1 env2 env3 : Faults)
    (id : String) (lat lng : Coord) (origin : Except String OriginReq) (s : State)
    (hset : env1.tileSet = none) (hupd : env1.updateOne = none) (hdel : env2.tileDel = none) :
    Tile38.held (addDriver env1 (.ok ⟨id, lat, lng⟩) s).2.geo "drivers" id = true ∧
    (deleteDriver env2 (.ok ⟨id⟩) (addDriver env1 (.ok ⟨id, lat, lng⟩) s).2).1 =
      .json 200 "message" "Driver deleted" ∧
    Tile38.held (deleteDriver env2 (.ok ⟨id⟩) (addDriver env1 (.ok ⟨id, lat, lng⟩) s).2).2.geo
      "drivers" id = false ∧
    findNearestDriver dist env3 origin
      (deleteDriver env2 (.ok ⟨id⟩) (addDriver env1 (.ok ⟨id, lat, lng⟩) s).2).2 ≠
        .json 200 "driver_id" id ∧
    (deleteDriver env2 (.ok ⟨id⟩) (addDriver env1 (.ok ⟨id, lat, lng⟩) s).2).2.docs =
      (addDriver env1 (.ok ⟨id, lat, lng⟩) s).2.docs ∧
    (⟨id, lat, lng, "driver"⟩ : Doc) ∈
      (deleteDriver env2 (.ok ⟨id⟩) (addDriver env1 (.ok ⟨id, lat, lng⟩) s).2).2.docs ∧
    (env3.find = none → env3.cursorAll = none →
      getAllLocations env3
        (deleteDriver env2 (.ok ⟨id⟩) (addDriver env1 (.ok ⟨id, lat, lng⟩) s).2).2 =
          .documents 200
            (deleteDriver env2 (.ok ⟨id⟩) (addDriver env1 (.ok ⟨id, lat, lng⟩) s).2).2.docs) := by
  have hadd : (addDriver env1 (.ok ⟨id, lat, lng⟩) s).2 =
      ⟨Tile38.upsertPoint "drivers" id ⟨lat, lng⟩ s.geo,
        Mongo.upsertFields id lat lng "driver" s.docs⟩ := by
    rw [addDriver_state]
    simp [Tile38.set, hset, Mongo.updateOne, hupd]
  have hdelst := deleteDriver_state env2 ⟨id⟩ (addDriver env1 (.ok ⟨id, lat, lng⟩) s).2
  simp only [Tile38.del, hdel] at hdelst
  have hgone : Tile38.held
      (deleteDriver env2 (.ok ⟨id⟩) (addDriver env1 (.ok ⟨id, lat, lng⟩) s).2).2.geo
      "drivers" id = false := by
    rw [hdelst]
    rw [Bool.eq_false_iff]
    intro hh
    exact ((Tile38.held_filter_not_isAt "drivers" id _ "drivers" id).mp hh).2 ⟨rfl, rfl⟩
  refine ⟨?_, ?_, hgone, ?_, ?_, ?_, ?_⟩
  · rw [hadd]
    exact (Tile38.held_upsertPoint "drivers" id _ s.geo "drivers" id).mpr (Or.inr ⟨rfl, rfl⟩)
  · simp [deleteDriver, Tile38.del, hdel]
  · intro hfound
    obtain ⟨req, o, -, ho, hk, hoid, -⟩ := findNearestDriver_ok dist env3 origin _ id hfound
    rw [Bool.eq_false_iff] at hgone
    exact hgone ((Tile38.held_iff _ _ _).mpr ⟨o, ho, hk, hoid⟩)
  · rw [hdelst]
  · rw [hdelst, hadd]
    exact Mongo.mem_upsertFields_self _ _ _ _ _
  · intro hfind hcur
    simp [getAllLocations, Mongo.findAll, hfind, hcur]

/-- Instance of `deleteDriver_after_addDriver`: driver `"b"` is added at `(1, 1)`
next to driver `"a"` and deleted. -/
theorem deleteDriver_after_addDriver_witness :
    (Faults.ok.tileSet = none ∧ Faults.ok.updateOne = none ∧ Faults.ok.tileDel = none) ∧
    findNearestDriver gapDist Faults.ok (.ok ⟨1, 1⟩)
      (deleteDriver Faults.ok (.ok ⟨"b"⟩)
        (addDriver Faults.ok (.ok ⟨"b", 1, 1⟩) driverFarAway).2).2 ≠ .json 200 "driver_id" "b" ∧
    (⟨"b", 1, 1, "driver"⟩ : Doc) ∈
      (deleteDriver Faults.ok (.ok ⟨"b"⟩)
        (addDriver Faults.ok (.ok ⟨"b", 1, 1⟩) driverFarAway).2).2.docs :=
  ⟨⟨rfl, rfl, rfl⟩,
    (deleteDriver_after_addDriver gapDist Faults.ok Faults.ok Faults.ok "b" 1 1 (.ok ⟨1, 1⟩)
      driverFarAway rfl rfl rfl).2.2.2.1,
    (deleteDriver_after_addDriver gapDist Faults.ok Faults.ok Faults.ok "b" 1 1 (.ok ⟨1, 1⟩)
      driverFarAway rfl rfl rfl).2.2.2.2.2.1⟩

/-- C5, as stated, fails: `addDelivery("a", (1, 1))` and then
`addDriver("a", (1, 1))` on empty stores, every call succeeding, reach a state
whose index holds the id `"a"` under `"deliveries"` and under `"drivers"`:
`addDriver` checks nothing before it writes. -/
theorem id_held_as_delivery_and_driver :
    Reachable AllOk deliveryThenDriver ∧
    Tile38.held deliveryThenDriver.geo "deliveries" "a" = true ∧
    Tile38.held deliveryThenDriver.geo "drivers" "a" = true :=
  ⟨Reachable.step _ _ _ rfl (Reachable.step _ _ _ rfl Reachable.init), rfl, rfl⟩

/-- C5, amended: in every state reached from the empty stores by requests to
`addDriver`, `updateDriverLocation`, `addDelivery`, `addStore`, `deleteDriver`,
`deleteDelivery`, `deleteStore` whose client calls all succeed, no id is held
in the index under both `"deliveries"` and `"stores"`, the two categories
created behind the existence check. -/
theorem delivery_and_store_ids_disjoint (s : State) (hreach : Reachable AllOk s)
    (id : String) :
    ¬ (Tile38.held s.geo "deliveries" id = true ∧ Tile38.held s.geo "stores" id = true) :=
  (guarded_of_reachable s hreach).2.2 id

/-- Instance of `delivery_and_store_ids_disjoint`: the state after a delivery and
a driver were added under the id `"a"`. -/
theorem delivery_and_store_ids_disjoint_witness :
    Reachable AllOk deliveryThenDriver ∧
    ¬ (Tile38.held deliveryThenDriver.geo "deliveries" "a" = true ∧
      Tile38.held deliveryThenDriver.geo "stores" "a" = true) :=
  ⟨Reachable.step _ _ _ rfl (Reachable.step _ _ _ rfl Reachable.init),
    delivery_and_store_ids_disjoint deliveryThenDriver
      (Reachable.step _ _ _ rfl (Reachable.step _ _ _ rfl Reachable.init)) "a"⟩

end Backend

end DelNet
